import Mathlib

/-!
Verification of the `calculator` package: a two-function arithmetic library
(`Add`, `Verify`, src/main.go) together with the test helpers that accompany
it (`testFloatParserReturnsError`, `testFloatParserFails`, `testSetENV`).

Go's `float64` is IEEE-754 binary64.  We embed it as an explicit inductive
type: a finite value is a sign, an integer significand `m` and a binary
exponent `e` (denoting `(-1)^s * m * 2^e`), alongside the two infinities and
a single canonical NaN.  Addition (`fadd`) is the IEEE operation: the exact
dyadic sum of the operands rounded to nearest, ties to even, with 53 bits of
precision, minimum exponent -1074 and overflow to infinity past exponent 971
(the exponent of the largest finite binary64, `(2^53-1) * 2^971`).

The test helpers live in the repository's test file.  `strconv.ParseFloat`
is Go standard-library code external to the repository, so the helpers are
parameterised by an arbitrary parse function `String → Float64 × Option
String` standing for `ParseFloat`'s `(float64, error)` result; `t.Fatal`
(aborting the test) is modelled by `Except.error`, and the process
environment mutated by `os.Getenv`/`os.Setenv` is modelled as an explicit
map `String → Option String` (`none` = variable unset; Go's `os.Getenv`
returns `""` for an unset variable).
-/

/-- IEEE-754 binary64 values: finite numbers `(-1)^s * m * 2^e`, signed
infinities, and a canonical NaN. -/
inductive Float64 where
  | finite (s : Bool) (m : ℕ) (e : ℤ)
  | inf (s : Bool)
  | nan
deriving DecidableEq, Repr

/-- Fuelled binary length so that evaluation is by structural recursion
(kernel-reducible). -/
def bitLenAux : ℕ → ℕ → ℕ
  | 0, _ => 0
  | fuel + 1, n => if n = 0 then 0 else bitLenAux fuel (n / 2) + 1

/-- Number of binary digits of `n` (`0` for `n = 0`).  `n` itself is enough
fuel since `log2 n + 1 ≤ n` for `n ≥ 1`. -/
def bitLen (n : ℕ) : ℕ := bitLenAux n n

/-- Round the positive dyadic value `n * 2^e` (with `n ≠ 0`) to the nearest
binary64 magnitude, ties to even: returns the significand and exponent of
the rounded value.  The target exponent keeps 53 significant bits, floored
at the subnormal exponent -1074; a carry out of the rounding step bumps the
exponent. -/
def roundPos (n : ℕ) (e : ℤ) : ℕ × ℤ :=
  let E : ℤ := max (e + (bitLen n : ℤ) - 53) (-1074)
  if E ≤ e then
    (n * 2 ^ (e - E).toNat, E)
  else
    let k : ℕ := (E - e).toNat
    let q : ℕ := n / 2 ^ k
    let r : ℕ := n % 2 ^ k
    let half : ℕ := 2 ^ (k - 1)
    let q2 : ℕ := if half < r ∨ (r = half ∧ q % 2 = 1) then q + 1 else q
    if q2 = 2 ^ 53 then (2 ^ 52, E + 1) else (q2, E)

/-- Round the signed dyadic value `z * 2^e` to a binary64: zero goes to `+0`,
and a magnitude whose rounded exponent exceeds 971 overflows to the signed
infinity. -/
def roundDyadic (z : ℤ) (e : ℤ) : Float64 :=
  if z = 0 then .finite false 0 0
  else
    let p := roundPos z.natAbs e
    if 971 < p.2 then .inf (decide (z < 0)) else .finite (decide (z < 0)) p.1 p.2

/-- Signed integer significand of a finite float component. -/
def sgnMag (s : Bool) (m : ℕ) : ℤ := if s then -(m : ℤ) else (m : ℤ)

/-- IEEE addition of two finite binary64 values: align both operands to the
smaller exponent, add the integer significands exactly, and round.  An
exactly zero sum yields `+0` unless both operands are negative (the IEEE
round-to-nearest rule for the sign of a zero sum), in which case `-0`. -/
def addFinite (s1 : Bool) (m1 : ℕ) (e1 : ℤ) (s2 : Bool) (m2 : ℕ) (e2 : ℤ) : Float64 :=
  if sgnMag s1 m1 * ((2 ^ (e1 - min e1 e2).toNat : ℕ) : ℤ)
      + sgnMag s2 m2 * ((2 ^ (e2 - min e1 e2).toNat : ℕ) : ℤ) = 0
  then .finite (s1 && s2) 0 0
  else roundDyadic (sgnMag s1 m1 * ((2 ^ (e1 - min e1 e2).toNat : ℕ) : ℤ)
      + sgnMag s2 m2 * ((2 ^ (e2 - min e1 e2).toNat : ℕ) : ℤ)) (min e1 e2)

/-- IEEE-754 binary64 addition, the meaning of Go's `+` on two `float64`
operands: NaN is absorbing, infinities of equal sign propagate, infinities
of opposite sign give NaN, an infinity dominates any finite operand, and
finite operands are added exactly and rounded. -/
def fadd : Float64 → Float64 → Float64
  | .nan, _ => .nan
  | _, .nan => .nan
  | .inf s1, .inf s2 => if s1 = s2 then .inf s1 else .nan
  | .inf s1, .finite _ _ _ => .inf s1
  | .finite _ _ _, .inf s2 => .inf s2
  | .finite s1 m1 e1, .finite s2 m2 e2 => addFinite s1 m1 e1 s2 m2 e2

/-- The binary64 nearest to the integer `z` (exact for small integers). -/
def ofInt (z : ℤ) : Float64 := roundDyadic z 0

namespace calculator

/-- Embedding of `Add` (src/main.go): `return x + y` on `float64`. -/
def Add (x y : Float64) : Float64 := fadd x y

/-- Embedding of `Verify` (src/main.go): `return true`, a stub ignoring both
inputs. -/
def Verify (got want : Float64) : Bool := true

end calculator

/-- The binary64 value `2^1023`, `finite` with significand `2^52` and
exponent `971`. -/
def big : Float64 := .finite false (2 ^ 52) 971

/-- The binary64 value `-2^1023`. -/
def bigNeg : Float64 := .finite true (2 ^ 52) 971

/-- The `float64` values exercised by the repository's tests
(`TestAddZeros`, `TestAddNegativeNumbers`, `TestAdd`, the helper examples):
`0`, `5`, `-5`, `10`, `-10`. -/
def testVals : List Float64 := [ofInt 0, ofInt 5, ofInt (-5), ofInt 10, ofInt (-10)]

/-- Embedding of `testFloatParserReturnsError` (test file): call the parse
function; on error return the value and the error, otherwise return the
value and `nil`.  `parseFloat` stands for `strconv.ParseFloat _ 64`, which
is Go standard-library code external to this repository. -/
def testFloatParserReturnsError (parseFloat : String → Float64 × Option String)
    (input : String) : Float64 × Option String :=
  match parseFloat input with
  | (out, some err) => (out, some err)
  | (out, none) => (out, none)

/-- Embedding of `testFloatParserFails` (test file): call the parse
function; on error abort the test via `t.Fatal(err)` (modelled as
`Except.error err`), otherwise return the parsed value. -/
def testFloatParserFails (parseFloat : String → Float64 × Option String)
    (input : String) : Except String Float64 :=
  match parseFloat input with
  | (_, some err) => Except.error err
  | (out, none) => Except.ok out

/-- The value carried by a successful helper outcome, `none` when the helper
aborted the test. -/
def exceptValue : Except String Float64 → Option Float64
  | .ok v => some v
  | .error _ => none

/-- A parse function that always succeeds with the value `10`, standing for
`ParseFloat` applied to the input `"10"` used by the repository's tests. -/
def constParseTen : String → Float64 × Option String := fun _ => (ofInt 10, none)

/-- Embedding of Go's `os.Getenv` over an explicit environment map: an
unset variable reads as the empty string. -/
def getenv (env : String → Option String) (key : String) : String := (env key).getD ""

/-- Embedding of Go's `os.Setenv` over an explicit environment map. -/
def setenv (env : String → Option String) (key value : String) : String → Option String :=
  fun k => if k = key then some value else env k

/-- Embedding of `testSetENV` (test file): read the original value with
`os.Getenv`, set the new value, and return the updated environment together
with the reset closure, which sets the key back to the originally read
string (note: `os.Getenv` of an unset variable is `""`, so the closure sets
`""` rather than unsetting). -/
def testSetENV (env : String → Option String) (key value : String) :
    (String → Option String) × ((String → Option String) → String → Option String) :=
  (setenv env key value, fun cur => setenv cur key (getenv env key))

/-- A concrete environment in which `HOME` is set. -/
def envHome : String → Option String := fun k => if k = "HOME" then some "/root" else none

/-- A concrete environment in which every variable is unset. -/
def envEmpty : String → Option String := fun _ => none

set_option maxRecDepth 100000

theorem addFinite_comm (s1 : Bool) (m1 : ℕ) (e1 : ℤ) (s2 : Bool) (m2 : ℕ) (e2 : ℤ) :
    addFinite s1 m1 e1 s2 m2 e2 = addFinite s2 m2 e2 s1 m1 e1 := by
  unfold addFinite
  rw [min_comm e2 e1, add_comm (sgnMag s2 m2 * ((2 ^ (e2 - min e1 e2).toNat : ℕ) : ℤ)),
    Bool.and_comm s2 s1]

theorem fadd_comm (x y : Float64) : fadd x y = fadd y x := by
  cases x <;> cases y <;>
    first
      | rfl
      | (apply addFinite_comm)
      | (rename_i s1 s2; cases s1 <;> cases s2 <;> rfl)

/-- C1: `Add(x, y)` returns the `float64` sum of its two inputs — its result
is exactly the IEEE-754 binary64 addition `fadd` of the operands; in
particular on the repository's own test vectors it computes `5 + 5 = 10`
and `(-5) + (-5) = -10`. -/
theorem add_is_float64_sum :
    (∀ x y : Float64, calculator.Add x y = fadd x y)
    ∧ calculator.Add (ofInt 5) (ofInt 5) = ofInt 10
    ∧ calculator.Add (ofInt (-5)) (ofInt (-5)) = ofInt (-10) :=
  ⟨fun _ _ => rfl, by decide, by decide⟩

/-- C2: `Verify(got, want)` returns `true` for every pair of `float64`
inputs, including pairs that differ and non-finite values — it is a
constant function. -/
theorem verify_always_true (got want : Float64) : calculator.Verify got want = true := rfl

/-- C3: `Add` is commutative — for every pair of `float64` inputs,
`Add(x, y) = Add(y, x)`, exactly (hence in particular within any
floating-point tolerance). -/
theorem add_commutative (x y : Float64) : calculator.Add x y = calculator.Add y x :=
  fadd_comm x y

/-- C4 counterexample: `Add` is not associative, and the failure is beyond
any floating-point tolerance.  With `x = y = 2^1023` and `z = -2^1023`,
`Add(Add(x, y), z)` overflows to `+Inf` while `Add(x, Add(y, z)) = 2^1023`
is finite. -/
theorem add_not_associative_cex :
    calculator.Add (calculator.Add big big) bigNeg
      ≠ calculator.Add big (calculator.Add big bigNeg) := by decide

set_option maxHeartbeats 2000000 in
/-- C4 amended: `Add` is associative on every triple drawn from the values
the repository's tests exercise (`0`, `±5`, `±10`), whose sums are all
exactly representable; associativity does not hold for arbitrary `float64`
inputs. -/
theorem add_associative_on_test_values :
    (testVals.all fun x => testVals.all fun y => testVals.all fun z =>
      decide (calculator.Add (calculator.Add x y) z
        = calculator.Add x (calculator.Add y z))) = true := by decide

/-- C5: `Add(0, 0)` returns the `float64` value `+0`. -/
theorem add_zero_zero :
    calculator.Add (.finite false 0 0) (.finite false 0 0) = .finite false 0 0 := rfl

/-- C6: `Add` and `Verify` are total and deterministic on every pair of
`float64` inputs, NaN and the infinities included: each call produces a
result, and equal inputs give equal results.  (Purity is reflected by the
embedding itself: both functions are pure Lean functions of their arguments
alone, touching no state.) -/
theorem add_verify_total_deterministic (x y x2 y2 : Float64) (hx : x = x2) (hy : y = y2) :
    (∃ r : Float64, calculator.Add x y = r)
    ∧ (∃ b : Bool, calculator.Verify x y = b)
    ∧ calculator.Add x y = calculator.Add x2 y2
    ∧ calculator.Verify x y = calculator.Verify x2 y2 :=
  ⟨⟨calculator.Add x y, rfl⟩, ⟨true, rfl⟩, by rw [hx, hy], by rw [hx, hy]⟩

/-- C6 witness: the determinism and totality theorem applied at the
non-finite inputs `NaN` and `-Inf`. -/
theorem add_verify_total_deterministic_witness :
    (∃ r : Float64, calculator.Add .nan (.inf true) = r)
    ∧ (∃ b : Bool, calculator.Verify .nan (.inf true) = b)
    ∧ calculator.Add .nan (.inf true) = calculator.Add .nan (.inf true)
    ∧ calculator.Verify .nan (.inf true) = calculator.Verify .nan (.inf true) :=
  add_verify_total_deterministic .nan (.inf true) .nan (.inf true) rfl rfl

/-- C7: the two parsing helpers surface a parse failure as stated.
`testFloatParserReturnsError` returns an error exactly when the parse
function does, and always passes the parsed value through;
`testFloatParserFails` aborts the test exactly when the parse function
errors, and otherwise returns the parsed value. -/
theorem parser_helpers_surface_failure (parseFloat : String → Float64 × Option String)
    (input : String) :
    ((testFloatParserReturnsError parseFloat input).2.isSome = (parseFloat input).2.isSome)
    ∧ ((testFloatParserReturnsError parseFloat input).1 = (parseFloat input).1)
    ∧ ((exceptValue (testFloatParserFails parseFloat input)).isNone = (parseFloat input).2.isSome)
    ∧ (exceptValue (testFloatParserFails parseFloat input)
        = if (parseFloat input).2.isSome then none else some (parseFloat input).1) := by
  rcases h : parseFloat input with ⟨out, err⟩
  cases err <;>
    simp [testFloatParserReturnsError, testFloatParserFails, exceptValue, h]

/-- C8: `Add` follows IEEE-754 semantics at the non-finite edge cases:
adding NaN to anything is NaN, and `(+Inf) + (-Inf)` is NaN. -/
theorem add_nan_absorbing_inf_cancel :
    (∀ y : Float64, calculator.Add .nan y = .nan)
    ∧ calculator.Add (.inf false) (.inf true) = .nan :=
  ⟨fun y => by cases y <;> rfl, rfl⟩

/-- C9: the closure returned by `testSetENV(key, value)` restores a
previously set variable to its original value, but a variable that was
originally unset is set to the empty string (because `os.Getenv` reads an
unset variable as `""`), not unset. -/
theorem testSetENV_round_trip (env : String → Option String) (key value : String) :
    (∀ orig, env key = some orig →
      (testSetENV env key value).2 ((testSetENV env key value).1) key = some orig)
    ∧ (env key = none →
      (testSetENV env key value).2 ((testSetENV env key value).1) key = some "") := by
  constructor
  · intro orig h
    simp [testSetENV, setenv, getenv, h]
  · intro h
    simp [testSetENV, setenv, getenv, h]

/-- C9 witness: the round-trip theorem applied to an environment with
`HOME` set to `/root` (restored to `/root`) and to the empty environment
(`HOME` ends up `""`, set rather than unset). -/
theorem testSetENV_round_trip_witness :
    (testSetENV envHome "HOME" "work").2 ((testSetENV envHome "HOME" "work").1) "HOME"
        = some "/root"
    ∧ (testSetENV envEmpty "HOME" "work").2 ((testSetENV envEmpty "HOME" "work").1) "HOME"
        = some "" :=
  ⟨(testSetENV_round_trip envHome "HOME" "work").1 "/root" (by decide),
   (testSetENV_round_trip envEmpty "HOME" "work").2 rfl⟩

/-- C10: the two parsing helpers agree on success — whenever the parse
function succeeds on the input, `testFloatParserFails` returns exactly the
value that `testFloatParserReturnsError` returns. -/
theorem parser_helpers_agree_on_success (parseFloat : String → Float64 × Option String)
    (input : String) (h : (parseFloat input).2 = none) :
    testFloatParserFails parseFloat input
      = Except.ok (testFloatParserReturnsError parseFloat input).1 := by
  rcases hp : parseFloat input with ⟨out, err⟩
  rw [hp] at h
  simp only at h
  subst h
  simp [testFloatParserFails, testFloatParserReturnsError, hp]

/-- C10 witness: the agreement theorem applied to the always-succeeding
parse of `"10"` used by the repository's tests. -/
theorem parser_helpers_agree_on_success_witness :
    testFloatParserFails constParseTen "10"
      = Except.ok (testFloatParserReturnsError constParseTen "10").1 :=
  parser_helpers_agree_on_success constParseTen "10" rfl
